import Mathlib

/-!
# Verification of the gold-analysis backend core

Shallow embedding of the quota engine, authentication manager, admin
manager, audit summaries, price aggregator and the `/analyze` endpoint of
the gold-analysis service, together with proofs of the specified
properties.

Conventions of the embedding:
* Python `str` values that the code inspects character by character
  (e-mails, passwords, password hashes) are `List Char`; opaque display
  strings (sources, error messages) are `String`.
* Python `float` prices are `ℚ`; a field that may be `None` (or `NaN`,
  which fails the same `x != x`/`is None` validation checks) is
  `Option ℚ`.
* Calendar dates (`"YYYY-MM-DD"` strings compared only for equality) are
  abstracted as `Nat`; the current date/time is passed explicitly.
* Mutation of a dataclass instance becomes explicit state passing: a
  method that mutates `self` returns the updated record.
* The SHA-256 digest (an external library call) is a parameter
  `H : List Char → List Char` of the definitions that use it.
-/

namespace GoldBot

/-- `UserTier` enum from `models.py`. -/
inductive UserTier where
  | basic
  | premium
  | vip
deriving DecidableEq, Repr

/-- `UserStatus` enum from `models.py`. -/
inductive UserStatus where
  | inactive
  | active
  | blocked
  | suspended
deriving DecidableEq, Repr

/-- `AnalysisType` enum from `models.py`. -/
inductive AnalysisType where
  | quick
  | detailed
  | chart
  | news
  | forecast
deriving DecidableEq, Repr

/-- The persisted `User` dataclass of `models.py`, restricted to the fields
the verified operations read or write (timestamps and display-only fields
are omitted; they never feed back into control flow). -/
structure User where
  user_id : Nat
  email : List Char
  password_hash : List Char
  tier : UserTier
  status : UserStatus
  total_analyses : Nat
  daily_analyses_count : Nat
  daily_analyses_date : Option Nat
deriving DecidableEq, Repr

/-- `User.get_daily_limit` from `models.py`: 1 / 5 / −1 (unlimited). -/
def get_daily_limit : UserTier → Int
  | .basic => 1
  | .premium => 5
  | .vip => -1

/-- `User.get_rate_limit` from `models.py`. -/
def get_rate_limit : UserTier → Nat
  | .basic => 5
  | .premium => 20
  | .vip => 50

/-- `User.get_remaining_analyses_today` from `models.py`: lazily resets the
daily counter when the stored date is not today, then returns
`max 0 (limit - count)`, or `-1` for the unlimited tier.  Returns the
remaining count together with the (possibly mutated) user. -/
def get_remaining_analyses_today (today : Nat) (u : User) : Int × User :=
  let u' := if u.daily_analyses_date ≠ some today then
      { u with daily_analyses_count := 0, daily_analyses_date := some today }
    else u
  let limit := get_daily_limit u'.tier
  if limit = -1 then (-1, u')
  else (max 0 (limit - u'.daily_analyses_count), u')

/-- `User.can_analyze_today` from `models.py`: remaining ≠ 0. -/
def can_analyze_today (today : Nat) (u : User) : Bool × User :=
  let r := get_remaining_analyses_today today u
  (r.1 ≠ 0, r.2)

/-- `User.increment_daily_analysis` from `models.py`. -/
def increment_daily_analysis (today : Nat) (u : User) : Bool × User :=
  let c := can_analyze_today today u
  if ¬ c.1 then (false, c.2)
  else
    let u' := c.2
    let u'' := if u'.daily_analyses_date ≠ some today then
        { u' with daily_analyses_count := 0, daily_analyses_date := some today }
      else u'
    (true, { u'' with
              daily_analyses_count := u''.daily_analyses_count + 1,
              total_analyses := u''.total_analyses + 1 })

/-- A sequence of `increment_daily_analysis` attempts within one calendar
day; the Boolean is `true` iff every attempt succeeded. -/
def increment_seq (today : Nat) : Nat → User → Bool × User
  | 0, u => (true, u)
  | n + 1, u =>
    let s := increment_daily_analysis today u
    if s.1 then increment_seq today n s.2 else (false, s.2)

lemma increment_success_le (today : Nat) (u : User)
    (hlim : u.tier ≠ UserTier.vip)
    (hs : (increment_daily_analysis today u).1 = true) :
    ((increment_daily_analysis today u).2.daily_analyses_count : Int)
      ≤ get_daily_limit u.tier := by
  unfold increment_daily_analysis can_analyze_today get_remaining_analyses_today at hs ⊢
  by_cases hd : u.daily_analyses_date = some today <;>
    cases htier : u.tier <;>
    simp_all [get_daily_limit] <;>
    first
      | omega
      | (split <;> simp_all <;> omega)

lemma increment_preserves_tier (today : Nat) (u : User) :
    (increment_daily_analysis today u).2.tier = u.tier := by
  unfold increment_daily_analysis can_analyze_today get_remaining_analyses_today
  by_cases hd : u.daily_analyses_date ≠ some today <;> simp [hd] <;>
    split <;> simp_all <;> split <;> simp_all

lemma increment_seq_success_le (today : Nat) (n : Nat) (u : User)
    (hlim : u.tier ≠ UserTier.vip) (hn : 1 ≤ n)
    (hs : (increment_seq today n u).1 = true) :
    ((increment_seq today n u).2.daily_analyses_count : Int)
      ≤ get_daily_limit u.tier := by
  induction n generalizing u with
  | zero => omega
  | succ m ih =>
    unfold increment_seq at hs ⊢
    by_cases h1 : (increment_daily_analysis today u).1 = true
    · simp only [h1, if_pos] at hs ⊢
      rcases Nat.eq_zero_or_pos m with hm | hm
      · subst hm
        simpa [increment_seq] using increment_success_le today u hlim h1
      · have htier := increment_preserves_tier today u
        have := ih (increment_daily_analysis today u).2
          (by rw [htier]; exact hlim) hm (by simpa using hs)
        rwa [htier] at this
    · simp [h1] at hs

lemma vip_increment_succeeds (today : Nat) (u : User)
    (h : u.tier = UserTier.vip) :
    (increment_daily_analysis today u).1 = true := by
  unfold increment_daily_analysis can_analyze_today get_remaining_analyses_today
  by_cases hd : u.daily_analyses_date ≠ some today <;>
    simp_all [get_daily_limit, h]

/-- **C2.**  Successful quota recordings within one calendar day never push
`daily_analyses_count` above the tier's daily limit (1 for basic, 5 for
premium), and for the VIP tier (sentinel limit −1) a recording attempt
always succeeds, so there is no ceiling. -/
theorem daily_quota_limit_invariant :
    (∀ (today n : Nat) (u : User), u.tier ≠ UserTier.vip → 1 ≤ n →
        (increment_seq today n u).1 = true →
        ((increment_seq today n u).2.daily_analyses_count : Int)
          ≤ get_daily_limit u.tier)
    ∧ (∀ (today : Nat) (u : User), u.tier = UserTier.vip →
        (increment_daily_analysis today u).1 = true) := by
  exact ⟨fun today n u h hn hs => increment_seq_success_le today n u h hn hs,
         fun today u h => vip_increment_succeeds today u h⟩

/-- Witness for `daily_quota_limit_invariant`: a concrete basic-tier user
and a concrete VIP user, evaluated on one recording each. -/
theorem daily_quota_limit_invariant_witness :
    ((increment_seq 7 1 ⟨42, [], [], UserTier.basic, UserStatus.active, 0, 0, none⟩).2.daily_analyses_count : Int)
        ≤ get_daily_limit UserTier.basic
    ∧ (increment_daily_analysis 7 ⟨43, [], [], UserTier.vip, UserStatus.active, 3, 9, some 7⟩).1 = true := by
  refine ⟨?_, daily_quota_limit_invariant.2 7 _ rfl⟩
  exact daily_quota_limit_invariant.1 7 1 _ (by decide) (by decide) (by decide)

/-! ## AuthManager (`auth_manager.py`) -/

/-- Characters allowed by `[A-Za-z]` in the source's regexes. -/
def is_alpha_char (c : Char) : Bool :=
  ('a' ≤ c && c ≤ 'z') || ('A' ≤ c && c ≤ 'Z')

/-- Characters allowed by `[0-9]`. -/
def is_digit_char (c : Char) : Bool :=
  '0' ≤ c && c ≤ '9'

/-- Characters of the e-mail local part class `[a-zA-Z0-9._%+-]`. -/
def is_local_char (c : Char) : Bool :=
  is_alpha_char c || is_digit_char c ||
    c = '.' || c = '_' || c = '%' || c = '+' || c = '-'

/-- Characters of the e-mail domain class `[a-zA-Z0-9.-]`. -/
def is_domain_char (c : Char) : Bool :=
  is_alpha_char c || is_digit_char c || c = '.' || c = '-'

/-- Split a character list at its first `'@'`, if any. -/
def split_first_at : List Char → Option (List Char × List Char)
  | [] => none
  | c :: rest =>
    if c = '@' then some ([], rest)
    else match split_first_at rest with
      | none => none
      | some (l, r) => some (c :: l, r)

/-- Decision procedure for the anchored domain regex
`[a-zA-Z0-9.-]+\.[a-zA-Z]{2,}$`: the string must end in an alphabetic
run of length ≥ 2 (the TLD), preceded by a literal dot, preceded by a
non-empty run of domain characters.  Because the TLD class is contained
in the domain class and the separating character must be a literal dot,
matching the maximal trailing alphabetic run is complete. -/
def domain_matches (dom : List Char) : Bool :=
  let rev := dom.reverse
  let tld := rev.takeWhile is_alpha_char
  let rest := rev.drop tld.length
  2 ≤ tld.length &&
    (match rest with
     | '.' :: pre => !pre.isEmpty && pre.all is_domain_char
     | _ => false)

/-- `AuthManager._validate_email`: the regex
`^[a-zA-Z0-9._%+-]+@[a-zA-Z0-9.-]+\.[a-zA-Z]{2,}$`. -/
def validate_email (e : List Char) : Bool :=
  match split_first_at e with
  | none => false
  | some (loc, dom) => !loc.isEmpty && loc.all is_local_char && domain_matches dom

/-- Error strings of `auth_manager.py` (Arabic-locale messages). -/
def msg_invalid_email : String := "البريد الإلكتروني غير صحيح"

def msg_already_registered : String := "البريد الإلكتروني مُسجل مسبقاً"

def msg_password_length : String := "كلمة المرور يجب أن تكون 6 أحرف على الأقل"

def msg_password_letters : String := "كلمة المرور يجب أن تحتوي على حروف"

def msg_password_digits : String := "كلمة المرور يجب أن تحتوي على أرقام"

def msg_register_generic : String := "حدث خطأ في التسجيل، يرجى المحاولة مرة أخرى"

def msg_unknown_email : String := "البريد الإلكتروني غير مُسجل"

def msg_bad_password : String := "كلمة المرور غير صحيحة"

def msg_account_inactive : String := "الحساب غير مفعل، تواصل مع الإدارة"

def msg_user_not_found : String := "المستخدم غير موجود"

def msg_account_not_active : String := "الحساب غير مفعل"

def msg_free_exhausted : String :=
  "تم استنفاد التحليل المجاني اليوم. ترقية الاشتراك للمزيد"

/-- `AuthManager._validate_password`: length ≥ 6, at least one letter,
at least one digit; returns the failure message of the first failing
check, as the source does. -/
def validate_password (p : List Char) : Bool × String :=
  if p.length < 6 then (false, msg_password_length)
  else if ¬ p.any is_alpha_char then (false, msg_password_letters)
  else if ¬ p.any is_digit_char then (false, msg_password_digits)
  else (true, "")

/-- Python's `str.lower` on the characters the e-mail regex admits. -/
def lower_str (e : List Char) : List Char := e.map Char.toLower

/-- `AuthManager._hash_password` with the random salt and the SHA-256
hex digest `H` passed explicitly: stores `salt:H(password + salt)`. -/
def hash_password (H : List Char → List Char) (salt pw : List Char) : List Char :=
  salt ++ ':' :: H (pw ++ salt)

/-- Python `"x".split(':')`: split at every colon. -/
def split_colon : List Char → List (List Char)
  | [] => [[]]
  | c :: rest =>
    if c = ':' then [] :: split_colon rest
    else match split_colon rest with
      | [] => [[c]]
      | part :: parts => (c :: part) :: parts

/-- `AuthManager._verify_password`: `salt, digest = hashed.split(':')`
raises unless the split has exactly two parts, and any exception yields
`False`; otherwise recompute and compare the digest. -/
def verify_password (H : List Char → List Char) (pw hashed : List Char) : Bool :=
  match split_colon hashed with
  | [salt, digest] => H (pw ++ salt) == digest
  | _ => false

/-- The users collection plus the id counter of `AuthManager`. -/
structure AuthState where
  users : List User
  user_counter : Nat
deriving DecidableEq, Repr

/-- `UserRegistrationRequest` (display-only fields omitted). -/
structure RegRequest where
  email : List Char
  password : List Char
deriving Repr

/-- `UserAuthResponse`, restricted to the fields the properties read. -/
structure AuthResponse where
  success : Bool
  user_id : Option Nat
  error : Option String
  daily_analyses_remaining : Option Int
deriving DecidableEq, Repr

/-- `find_one({"email": e})` on the users collection. -/
def find_user_by_email (users : List User) (e : List Char) : Option User :=
  users.find? (fun u => u.email == e)

/-- `find_one({"user_id": uid})` on the users collection. -/
def find_user_by_id (users : List User) (uid : Nat) : Option User :=
  users.find? (fun u => u.user_id == uid)

/-- `update_one({"user_id": u.user_id}, {"$set": ...})`. -/
def update_user (st : AuthState) (u : User) : AuthState :=
  { st with users := st.users.map (fun v => if v.user_id == u.user_id then u else v) }

/-- `AuthManager.register_user`.  The duplicate check queries the RAW
request e-mail while the stored user carries the lowercased e-mail; the
MongoDB unique index on `email` (created in `initialize`) makes
`insert_one` raise on a lowercase collision, which the surrounding
`except` turns into the generic registration error. -/
def register_user (H : List Char → List Char) (salt : List Char) (today : Nat)
    (st : AuthState) (req : RegRequest) : AuthResponse × AuthState :=
  if ¬ validate_email req.email then
    (⟨false, none, some msg_invalid_email, none⟩, st)
  else if (find_user_by_email st.users req.email).isSome then
    (⟨false, none, some msg_already_registered, none⟩, st)
  else
    let pv := validate_password req.password
    if ¬ pv.1 then
      (⟨false, none, some pv.2, none⟩, st)
    else
      let new_user : User :=
        { user_id := st.user_counter,
          email := lower_str req.email,
          password_hash := hash_password H salt req.password,
          tier := .basic,
          status := .active,
          total_analyses := 0,
          daily_analyses_count := 0,
          daily_analyses_date := none }
      if (find_user_by_email st.users new_user.email).isSome
          ∨ (find_user_by_id st.users new_user.user_id).isSome then
        (⟨false, none, some msg_register_generic, none⟩, st)
      else
        (⟨true, some new_user.user_id, none,
            some (get_remaining_analyses_today today new_user).1⟩,
         { users := st.users ++ [new_user], user_counter := st.user_counter + 1 })

/-- `User.is_active`. -/
def is_active (u : User) : Bool := u.status == .active

/-- `AuthManager.login_user` (the `last_seen` touch does not affect any
verified state and is omitted). -/
def login_user (H : List Char → List Char) (today : Nat) (st : AuthState)
    (email pw : List Char) : AuthResponse :=
  match find_user_by_email st.users (lower_str email) with
  | none => ⟨false, none, some msg_unknown_email, none⟩
  | some u =>
    if ¬ verify_password H pw u.password_hash then
      ⟨false, none, some msg_bad_password, none⟩
    else if ¬ is_active u then
      ⟨false, none, some msg_account_inactive, none⟩
    else
      ⟨true, some u.user_id, none, some (get_remaining_analyses_today today u).1⟩

/-- `AuthManager.can_user_analyze`: `(allowed, reason, remaining)`. -/
def can_user_analyze (today : Nat) (st : AuthState) (uid : Nat) :
    Bool × String × Int :=
  match find_user_by_id st.users uid with
  | none => (false, msg_user_not_found, 0)
  | some u =>
    if ¬ is_active u then (false, msg_account_not_active, 0)
    else
      let c := can_analyze_today today u
      if ¬ c.1 then
        if get_daily_limit u.tier = 1 then (false, msg_free_exhausted, 0)
        else (false, "daily-limit-exhausted", 0)
      else (true, "", (get_remaining_analyses_today today u).1)

/-- `AuthManager.record_analysis`: increment and persist on success. -/
def record_analysis (today : Nat) (st : AuthState) (uid : Nat) :
    Bool × AuthState :=
  match find_user_by_id st.users uid with
  | none => (false, st)
  | some u =>
    let r := increment_daily_analysis today u
    if r.1 then (true, update_user st r.2) else (false, st)

/-- `UserTier(value)`: raises `ValueError` for an unknown string. -/
def tier_of_string : String → Option UserTier
  | "basic" => some .basic
  | "premium" => some .premium
  | "vip" => some .vip
  | _ => none

/-- `AuthManager.update_user_subscription` (admin subscription change):
validates the tier string, overwrites the tier and RESETS the daily
counter pair, then persists.  Returns
`(success, new_daily_limit, state)`. -/
def update_user_subscription (today : Nat) (st : AuthState)
    (uid : Nat) (new_tier : String) : Bool × Option Int × AuthState :=
  match tier_of_string new_tier with
  | none => (false, none, st)
  | some tier =>
    match find_user_by_id st.users uid with
    | none => (false, none, st)
    | some u =>
      let u' := { u with
                   tier := tier,
                   daily_analyses_count := 0,
                   daily_analyses_date := some today }
      (true, some (get_daily_limit tier), update_user st u')

/-- `AdminManager.update_user_tier` (the variant behind the bundled
server's `/admin/users/update-tier` route): validates the tier string and
overwrites the tier, but does NOT touch the daily counter pair. -/
def admin_update_user_tier (st : AuthState) (uid : Nat) (new_tier : String) :
    Bool × AuthState :=
  match tier_of_string new_tier with
  | none => (false, st)
  | some tier =>
    match find_user_by_id st.users uid with
    | none => (false, st)
    | some u => (true, update_user st { u with tier := tier })

lemma split_colon_no_colon (d : List Char) (hd : ':' ∉ d) :
    split_colon d = [d] := by
  induction d with
  | nil => rfl
  | cons c rest ih =>
    have hc : c ≠ ':' := fun h => hd (h ▸ List.mem_cons_self c rest)
    have hrest : ':' ∉ rest := fun h => hd (List.mem_cons_of_mem c h)
    simp [split_colon, hc, ih hrest]

lemma split_colon_append (s d : List Char) (hs : ':' ∉ s) (hd : ':' ∉ d) :
    split_colon (s ++ ':' :: d) = [s, d] := by
  induction s with
  | nil => simp [split_colon, split_colon_no_colon d hd]
  | cons c rest ih =>
    have hc : c ≠ ':' := fun h => hs (h ▸ List.mem_cons_self c rest)
    have hrest : ':' ∉ rest := fun h => hs (List.mem_cons_of_mem c h)
    simp [split_colon, hc, ih hrest]

lemma verify_password_same (H : List Char → List Char) (salt pw : List Char)
    (hs : ':' ∉ salt) (hd : ':' ∉ H (pw ++ salt)) :
    verify_password H pw (hash_password H salt pw) = true := by
  unfold verify_password hash_password
  rw [split_colon_append salt _ hs hd]
  simp

lemma verify_password_other (H : List Char → List Char) (salt pw pw' : List Char)
    (hH : Function.Injective H)
    (hs : ':' ∉ salt) (hd : ':' ∉ H (pw ++ salt)) (hne : pw' ≠ pw) :
    verify_password H pw' (hash_password H salt pw) = false := by
  unfold verify_password hash_password
  rw [split_colon_append salt _ hs hd]
  simp only [beq_eq_false_iff_ne, ne_eq]
  intro h
  exact hne (List.append_cancel_right (hH h))

/-- The user record built by a successful registration. -/
def registered_user (H : List Char → List Char) (salt : List Char)
    (st : AuthState) (req : RegRequest) : User :=
  { user_id := st.user_counter,
    email := lower_str req.email,
    password_hash := hash_password H salt req.password,
    tier := .basic,
    status := .active,
    total_analyses := 0,
    daily_analyses_count := 0,
    daily_analyses_date := none }

lemma register_success_state (H : List Char → List Char) (salt : List Char)
    (today : Nat) (st : AuthState) (req : RegRequest)
    (h : (register_user H salt today st req).1.success = true) :
    (register_user H salt today st req).2.users
      = st.users ++ [registered_user H salt st req]
    ∧ find_user_by_email st.users (lower_str req.email) = none := by
  unfold register_user at h ⊢
  by_cases h1 : validate_email req.email
  · by_cases h2 : (find_user_by_email st.users req.email).isSome
    · simp [h1, h2] at h
    · by_cases h3 : (validate_password req.password).1
      · by_cases h4 : (find_user_by_email st.users (lower_str req.email)).isSome
          ∨ (find_user_by_id st.users st.user_counter).isSome
        · simp [h1, h2, h3, h4] at h
        · push_neg at h4
          refine ⟨by simp [h1, h2, h3, h4.1, h4.2, registered_user], ?_⟩
          exact Option.not_isSome_iff_eq_none.mp (by simpa using h4.1)
      · simp [h1, h2, h3] at h
  · simp [h1] at h

lemma find_user_by_email_append (l₁ l₂ : List User) (e : List Char) :
    find_user_by_email (l₁ ++ l₂) e
      = (find_user_by_email l₁ e).or (find_user_by_email l₂ e) := by
  simp [find_user_by_email, List.find?_append]

/-- **C3.**  Password round-trip: after a successful registration, login
with the same e-mail and password succeeds, and login with any other
password is rejected with the bad-password error.  The SHA-256 digest is
abstracted as an arbitrary function `H`; the round-trip needs that the
salt and the digests are colon-free (true of `token_hex` salts and hex
digests) and that `H` is collision-free. -/
theorem register_login_roundtrip
    (H : List Char → List Char) (salt : List Char) (today : Nat)
    (st : AuthState) (req : RegRequest)
    (hH : Function.Injective H)
    (hsalt : ':' ∉ salt)
    (hdig : ':' ∉ H (req.password ++ salt))
    (hreg : (register_user H salt today st req).1.success = true) :
    (login_user H today (register_user H salt today st req).2
        req.email req.password).success = true
    ∧ ∀ pw' : List Char, pw' ≠ req.password →
        login_user H today (register_user H salt today st req).2 req.email pw'
          = ⟨false, none, some msg_bad_password, none⟩ := by
  obtain ⟨husers, hnone⟩ := register_success_state H salt today st req hreg
  have hfind : find_user_by_email (register_user H salt today st req).2.users
      (lower_str req.email) = some (registered_user H salt st req) := by
    rw [husers, find_user_by_email_append, hnone]
    simp [find_user_by_email, registered_user]
  constructor
  · unfold login_user
    rw [hfind]
    have hv := verify_password_same H salt req.password hsalt hdig
    simp [registered_user, hv, is_active]
  · intro pw' hne
    unfold login_user
    rw [hfind]
    have hv := verify_password_other H salt req.password pw' hH hsalt hdig hne
    simp [registered_user, hv]

/-- Witness for `register_login_roundtrip`: the identity digest (injective,
colon-free on colon-free input) on a concrete registration. -/
theorem register_login_roundtrip_witness :
    (login_user (fun l => l) 7
        (register_user (fun l => l) ['s','1'] 7 ⟨[], 1000⟩
            ⟨['a','@','t','e','s','t','.','c','o','m'], ['p','w','1','2','3','4']⟩).2
        ['a','@','t','e','s','t','.','c','o','m'] ['p','w','1','2','3','4']).success = true
    ∧ login_user (fun l => l) 7
        (register_user (fun l => l) ['s','1'] 7 ⟨[], 1000⟩
            ⟨['a','@','t','e','s','t','.','c','o','m'], ['p','w','1','2','3','4']⟩).2
        ['a','@','t','e','s','t','.','c','o','m'] ['p','w','1','2','3','5']
        = ⟨false, none, some msg_bad_password, none⟩ := by
  have h := register_login_roundtrip (fun l => l) ['s','1'] 7 ⟨[], 1000⟩
    ⟨['a','@','t','e','s','t','.','c','o','m'], ['p','w','1','2','3','4']⟩
    (fun a b hab => hab) (by decide) (by decide) (by decide)
  exact ⟨h.1, h.2 ['p','w','1','2','3','5'] (by decide)⟩

lemma find_user_by_id_update (users : List User) (uid : Nat) (w : User)
    (hw : w.user_id = uid) (h : (find_user_by_id users uid).isSome) :
    find_user_by_id (users.map (fun v => if v.user_id == w.user_id then w else v)) uid
      = some w := by
  induction users with
  | nil => simp [find_user_by_id] at h
  | cons a rest ih =>
    by_cases ha : a.user_id = uid
    · simp [find_user_by_id, hw, ha]
    · have : find_user_by_id (a :: rest) uid = find_user_by_id rest uid := by
        simp [find_user_by_id, List.find?_cons, ha]
      rw [this] at h
      simpa [find_user_by_id, List.find?_cons, ha, hw] using ih h

/-- **C4 (amended).**  The AuthManager subscription-change operation
`update_user_subscription` resets the daily counter pair, so immediately
afterwards the user's remaining-today count equals the new tier's full
daily limit, regardless of the prior `daily_analyses_count`. -/
theorem update_subscription_resets_daily_count
    (today : Nat) (st : AuthState) (uid : Nat) (ts : String) (tier : UserTier)
    (ht : tier_of_string ts = some tier)
    (hu : (find_user_by_id st.users uid).isSome) :
    (update_user_subscription today st uid ts).1 = true
    ∧ (update_user_subscription today st uid ts).2.1 = some (get_daily_limit tier)
    ∧ (find_user_by_id (update_user_subscription today st uid ts).2.2.users uid).map
        (fun u' => (get_remaining_analyses_today today u').1)
      = some (get_daily_limit tier) := by
  obtain ⟨u, hu'⟩ := Option.isSome_iff_exists.mp hu
  have hid : u.user_id = uid := by
    have := List.find?_some hu'
    simpa using this
  unfold update_user_subscription
  rw [ht, hu']
  refine ⟨rfl, rfl, ?_⟩
  have hfind := find_user_by_id_update st.users uid
    { u with tier := tier, daily_analyses_count := 0, daily_analyses_date := some today }
    (by simpa using hid) hu
  unfold update_user
  rw [hfind]
  cases tier <;> simp [get_remaining_analyses_today, get_daily_limit]

/-- Witness for `update_subscription_resets_daily_count`: an exhausted
basic user upgraded to premium has 5 analyses remaining. -/
theorem update_subscription_resets_daily_count_witness :
    (update_user_subscription 7 ⟨[⟨1000, [], [], .basic, .active, 1, 1, some 7⟩], 1001⟩
        1000 "premium").1 = true
    ∧ (update_user_subscription 7 ⟨[⟨1000, [], [], .basic, .active, 1, 1, some 7⟩], 1001⟩
        1000 "premium").2.1 = some (get_daily_limit .premium)
    ∧ (find_user_by_id (update_user_subscription 7
          ⟨[⟨1000, [], [], .basic, .active, 1, 1, some 7⟩], 1001⟩ 1000 "premium").2.2.users
          1000).map (fun u' => (get_remaining_analyses_today 7 u').1)
      = some (get_daily_limit .premium) :=
  update_subscription_resets_daily_count 7
    ⟨[⟨1000, [], [], .basic, .active, 1, 1, some 7⟩], 1001⟩ 1000 "premium"
    .premium (by decide) (by decide)

/-- **C4 (counterexample).**  The AdminManager tier-change operation
`admin_update_user_tier` — the one behind the bundled server's
`/admin/users/update-tier` route — does NOT reset the daily counter: an
exhausted basic user (count 1) upgraded to premium has 4 analyses
remaining, not the full limit 5. -/
theorem admin_update_tier_no_reset_cex :
    (admin_update_user_tier ⟨[⟨1000, [], [], .basic, .active, 1, 1, some 7⟩], 1001⟩
        1000 "premium").1 = true
    ∧ (find_user_by_id (admin_update_user_tier
          ⟨[⟨1000, [], [], .basic, .active, 1, 1, some 7⟩], 1001⟩ 1000 "premium").2.users
          1000).map (fun u' => (get_remaining_analyses_today 7 u').1)
        ≠ some (get_daily_limit UserTier.premium)
    ∧ (find_user_by_id (admin_update_user_tier
          ⟨[⟨1000, [], [], .basic, .active, 1, 1, some 7⟩], 1001⟩ 1000 "premium").2.users
          1000).map (fun u' => (get_remaining_analyses_today 7 u').1)
        = some 4 := by
  refine ⟨by decide, by decide, by decide⟩

/-- **C8 (amended).**  When any stored user already carries the lowercased
request e-mail, registration never succeeds and leaves the store
unchanged — but the already-registered error is only produced when the
raw request e-mail matches the stored (lowercase) one; a case-variant
duplicate falls through to the unique-index failure and the generic
registration error.  Moreover every user a successful registration
stores carries the lowercased request e-mail. -/
theorem register_duplicate_lowercase_rejected
    (H : List Char → List Char) (salt : List Char) (today : Nat)
    (st : AuthState) (req : RegRequest)
    (hdup : ∃ u ∈ st.users, u.email = lower_str req.email) :
    (register_user H salt today st req).1.success = false
    ∧ (register_user H salt today st req).2 = st
    ∧ ∀ (H' : List Char → List Char) (salt' : List Char) (today' : Nat)
        (st' : AuthState) (req' : RegRequest),
        (register_user H' salt' today' st' req').1.success = true →
        (register_user H' salt' today' st' req').2.users
          = st'.users ++ [registered_user H' salt' st' req']
          ∧ (registered_user H' salt' st' req').email = lower_str req'.email := by
  have hfound : (find_user_by_email st.users (lower_str req.email)).isSome := by
    obtain ⟨u, hmem, he⟩ := hdup
    unfold find_user_by_email
    rw [List.find?_isSome]
    exact ⟨u, hmem, by simp [he]⟩
  refine ⟨?_, ?_, fun H' salt' today' st' req' h =>
    ⟨(register_success_state H' salt' today' st' req' h).1, rfl⟩⟩ <;>
  · unfold register_user
    by_cases h1 : validate_email req.email
    · by_cases h2 : (find_user_by_email st.users req.email).isSome
      · simp [h1, h2]
      · by_cases h3 : (validate_password req.password).1
        · simp [h1, h2, h3, hfound]
        · simp [h1, h2, h3]
    · simp [h1]

/-- Witness for `register_duplicate_lowercase_rejected`: a store already
holding `a@test.com` rejects a registration of `A@test.com`. -/
theorem register_duplicate_lowercase_rejected_witness :
    (register_user (fun l => l) ['s','1'] 7
        ⟨[⟨1000, ['a','@','t','e','s','t','.','c','o','m'], ['x'],
            .basic, .active, 0, 0, none⟩], 1001⟩
        ⟨['A','@','t','e','s','t','.','c','o','m'], ['p','w','1','2','3','4']⟩).1.success
        = false
    ∧ (register_user (fun l => l) ['s','1'] 7
        ⟨[⟨1000, ['a','@','t','e','s','t','.','c','o','m'], ['x'],
            .basic, .active, 0, 0, none⟩], 1001⟩
        ⟨['A','@','t','e','s','t','.','c','o','m'], ['p','w','1','2','3','4']⟩).2
        = ⟨[⟨1000, ['a','@','t','e','s','t','.','c','o','m'], ['x'],
            .basic, .active, 0, 0, none⟩], 1001⟩
    ∧ ∀ (H' : List Char → List Char) (salt' : List Char) (today' : Nat)
        (st' : AuthState) (req' : RegRequest),
        (register_user H' salt' today' st' req').1.success = true →
        (register_user H' salt' today' st' req').2.users
          = st'.users ++ [registered_user H' salt' st' req']
          ∧ (registered_user H' salt' st' req').email = lower_str req'.email :=
  register_duplicate_lowercase_rejected (fun l => l) ['s','1'] 7
    ⟨[⟨1000, ['a','@','t','e','s','t','.','c','o','m'], ['x'],
        .basic, .active, 0, 0, none⟩], 1001⟩
    ⟨['A','@','t','e','s','t','.','c','o','m'], ['p','w','1','2','3','4']⟩
    ⟨⟨1000, ['a','@','t','e','s','t','.','c','o','m'], ['x'],
        .basic, .active, 0, 0, none⟩, List.mem_singleton.mpr rfl, by decide⟩

/-- **C8 (counterexample).**  Register `A@test.com` twice: the first call
succeeds (storing `a@test.com`), and the second call — same e-mail, so
trivially equal after lowercasing — is rejected with the GENERIC
registration error produced by the unique-index violation, not with the
already-registered error, because the duplicate pre-check queries the raw
(non-lowercased) e-mail. -/
theorem duplicate_email_case_variant_cex :
    (register_user (fun l => l) ['s','1'] 7 ⟨[], 1000⟩
        ⟨['A','@','t','e','s','t','.','c','o','m'], ['p','w','1','2','3','4']⟩).1.success = true
    ∧ (register_user (fun l => l) ['s','2'] 7
        (register_user (fun l => l) ['s','1'] 7 ⟨[], 1000⟩
          ⟨['A','@','t','e','s','t','.','c','o','m'], ['p','w','1','2','3','4']⟩).2
        ⟨['A','@','t','e','s','t','.','c','o','m'], ['p','w','1','2','3','4']⟩).1.error
        = some msg_register_generic
    ∧ msg_register_generic ≠ msg_already_registered := by
  refine ⟨by decide, by decide, by decide⟩

/-! ## AuditRecorder daily summaries (`admin_manager.py`) -/

/-- The `UserDailySummary` dataclass of `models.py` (response times in
exact rational arithmetic). -/
structure UserDailySummary where
  user_id : Nat
  date : Nat
  total_requests : Nat
  successful_analyses : Nat
  failed_analyses : Nat
  avg_response_time : ℚ
  quick_analyses : Nat
  detailed_analyses : Nat
  chart_analyses : Nat
  news_analyses : Nat
  forecast_analyses : Nat
deriving DecidableEq, Repr

/-- A summary freshly created for `(user_id, date)`; all counters zero. -/
def fresh_summary (uid date : Nat) : UserDailySummary :=
  ⟨uid, date, 0, 0, 0, 0, 0, 0, 0, 0, 0⟩

/-- `AdminManager._update_daily_summary` (the pure summary update): bump
the total, the success/failure counter and the per-kind counter, then
update the running average via
`total_time = avg * (total - 1) + t; avg = total_time / total`
(with `total` already incremented), or set it to the sample when this is
the first request. -/
def update_daily_summary (t : AnalysisType) (success : Bool) (pt : ℚ)
    (s : UserDailySummary) : UserDailySummary :=
  let s1 := { s with total_requests := s.total_requests + 1 }
  let s2 := if success then
      { s1 with successful_analyses := s1.successful_analyses + 1 }
    else
      { s1 with failed_analyses := s1.failed_analyses + 1 }
  let s3 := match t with
    | .quick => { s2 with quick_analyses := s2.quick_analyses + 1 }
    | .detailed => { s2 with detailed_analyses := s2.detailed_analyses + 1 }
    | .chart => { s2 with chart_analyses := s2.chart_analyses + 1 }
    | .news => { s2 with news_analyses := s2.news_analyses + 1 }
    | .forecast => { s2 with forecast_analyses := s2.forecast_analyses + 1 }
  if 1 < s3.total_requests then
    { s3 with avg_response_time :=
        (s3.avg_response_time * ((s3.total_requests : ℚ) - 1) + pt)
          / (s3.total_requests : ℚ) }
  else
    { s3 with avg_response_time := pt }

/-- The audit worker processing a queue of log items
`(kind, success, processing_time)` in order. -/
def process_log_items (s : UserDailySummary)
    (L : List (AnalysisType × Bool × ℚ)) : UserDailySummary :=
  L.foldl (fun acc it => update_daily_summary it.1 it.2.1 it.2.2 acc) s

/-- Modelled from the spec: the AuditRecorder running-mean recurrence
`new_mean = old_mean + (sample − old_mean) / new_total` (spec §4.5),
stated for comparison with the implementation's update. -/
def spec_running_mean (old_mean new_total sample : ℚ) : ℚ :=
  old_mean + (sample - old_mean) / new_total

lemma update_summary_total (t : AnalysisType) (b : Bool) (pt : ℚ)
    (s : UserDailySummary) :
    (update_daily_summary t b pt s).total_requests = s.total_requests + 1 := by
  unfold update_daily_summary
  cases t <;> cases b <;> dsimp <;> split <;> rfl

lemma update_summary_avg (t : AnalysisType) (b : Bool) (pt : ℚ)
    (s : UserDailySummary) :
    (update_daily_summary t b pt s).avg_response_time
      = (s.avg_response_time * (s.total_requests : ℚ) + pt)
          / ((s.total_requests : ℚ) + 1) := by
  unfold update_daily_summary
  cases t <;> cases b <;> dsimp <;> split <;> rename_i h
  all_goals
    first
      | (have h0 : s.total_requests = 0 := by omega
         simp [h0])
      | (push_cast
         ring)

lemma process_items_total (L : List (AnalysisType × Bool × ℚ))
    (s : UserDailySummary) :
    (process_log_items s L).total_requests = s.total_requests + L.length := by
  induction L generalizing s with
  | nil => simp [process_log_items]
  | cons a rest ih =>
    simp only [process_log_items, List.foldl_cons] at ih ⊢
    rw [ih, update_summary_total, List.length_cons]
    omega

lemma process_items_avg_mul (L : List (AnalysisType × Bool × ℚ))
    (s : UserDailySummary) :
    (process_log_items s L).avg_response_time
        * ((process_log_items s L).total_requests : ℚ)
      = s.avg_response_time * (s.total_requests : ℚ)
          + (L.map (fun it => it.2.2)).sum := by
  induction L generalizing s with
  | nil => simp [process_log_items]
  | cons a rest ih =>
    simp only [process_log_items, List.foldl_cons, List.map_cons, List.sum_cons] at ih ⊢
    rw [ih, update_summary_avg, update_summary_total]
    have hne : ((s.total_requests : ℚ) + 1) ≠ 0 := by positivity
    push_cast
    field_simp
    ring

/-- **C9.**  After the audit recorder processes `N` log items with
processing times `t₁ … t_N` into a fresh summary, the stored
`avg_response_time` is the exact arithmetic mean `(t₁ + ⋯ + t_N) / N`;
moreover one implementation step
(`total = old_mean·(n−1) + sample; new_mean = total/n`) computes exactly
the spec's recurrence `new_mean = old_mean + (sample − old_mean)/new_total`. -/
theorem daily_summary_mean_correct :
    (∀ (uid d : Nat) (L : List (AnalysisType × Bool × ℚ)), L ≠ [] →
        (process_log_items (fresh_summary uid d) L).avg_response_time
          = (L.map (fun it => it.2.2)).sum / (L.length : ℚ))
    ∧ (∀ (t : AnalysisType) (b : Bool) (pt : ℚ) (s : UserDailySummary),
        (update_daily_summary t b pt s).avg_response_time
          = spec_running_mean s.avg_response_time ((s.total_requests : ℚ) + 1) pt) := by
  constructor
  · intro uid d L hL
    have hmul := process_items_avg_mul L (fresh_summary uid d)
    have htot := process_items_total L (fresh_summary uid d)
    simp only [fresh_summary] at hmul htot
    rw [htot] at hmul
    have hlen : ((L.length : ℚ)) ≠ 0 := by
      exact_mod_cast (List.length_pos.mpr hL).ne'
    rw [eq_div_iff hlen]
    simpa using hmul
  · intro t b pt s
    rw [update_summary_avg]
    unfold spec_running_mean
    have hne : ((s.total_requests : ℚ) + 1) ≠ 0 := by positivity
    field_simp
    ring

/-- Witness for `daily_summary_mean_correct`: two log items with times 3
and 5 give mean 4. -/
theorem daily_summary_mean_correct_witness :
    (process_log_items (fresh_summary 1 7)
        [(.quick, true, 3), (.detailed, false, 5)]).avg_response_time
      = ([(AnalysisType.quick, true, (3 : ℚ)), (.detailed, false, 5)].map
          (fun it => it.2.2)).sum / (2 : ℚ)
    ∧ (update_daily_summary .quick true 9 (fresh_summary 1 7)).avg_response_time
        = spec_running_mean (fresh_summary 1 7).avg_response_time
            (((fresh_summary 1 7).total_requests : ℚ) + 1) 9 := by
  constructor
  · have h := daily_summary_mean_correct.1 1 7
      [(.quick, true, 3), (.detailed, false, 5)] (by simp)
    simpa using h
  · exact daily_summary_mean_correct.2 .quick true 9 (fresh_summary 1 7)

/-! ## GoldPriceManager (`gold_price.py`) -/

/-- The `GoldPrice` dataclass of `models.py`, restricted to the fields the
aggregator reads and writes.  A price field is `Option ℚ`: `none` stands
for Python `None` — or `NaN`, which fails exactly the same validation
checks (`is None` / `x != x` / range). -/
structure GoldPrice where
  price_usd : Option ℚ
  price_change : Option ℚ
  price_change_pct : Option ℚ
  ask : Option ℚ
  bid : Option ℚ
  high_24h : Option ℚ
  low_24h : Option ℚ
  source : String
deriving DecidableEq, Repr

/-- `GoldPriceManager._validate_price_data`: the price must be present
(not `None`/`NaN`), positive, within `[1000, 5000]`, and the primary
fields `price_change`, `price_change_pct`, `ask`, `bid` non-null. -/
def validate_price_data (p : GoldPrice) : Bool :=
  match p.price_usd with
  | none => false
  | some v =>
    if v ≤ 0 then false
    else if ¬ (1000 ≤ v ∧ v ≤ 5000) then false
    else p.price_change.isSome && p.price_change_pct.isSome
          && p.ask.isSome && p.bid.isSome

/-- The JSON body shapes the four active parsers read, modelled as one
record of optional fields (mirroring Python `dict.get`). -/
structure YahooQuote where
  regularMarketPrice : Option ℚ := none
  regularMarketPreviousClose : Option ℚ := none
  regularMarketChange : Option ℚ := none
  regularMarketChangePercent : Option ℚ := none
  ask : Option ℚ := none
  bid : Option ℚ := none
  regularMarketDayHigh : Option ℚ := none
  regularMarketDayLow : Option ℚ := none
deriving DecidableEq, Repr

structure ApiBody where
  price : Option ℚ := none
  succ_flag : Option Bool := none
  ratesXAU : Option ℚ := none
  quoteResult : List YahooQuote := []
deriving DecidableEq, Repr

/-- `_parse_api_ninjas_response`: `{"price": p}`; `not price or price <= 0`
raises; ask/bid/high/low derived by the ±2 / ±15 heuristics. -/
def parse_api_ninjas_response (d : ApiBody) : Option GoldPrice :=
  match d.price with
  | none => none
  | some p =>
    if p ≤ 0 then none
    else some { price_usd := some p, price_change := some 12.5,
                price_change_pct := some 0.38,
                ask := some (p + 2), bid := some (p - 2),
                high_24h := some (p + 15), low_24h := some (p - 15),
                source := "API Ninjas" }

/-- `_parse_metals_api_response`: `{"success": true, "rates": {"XAU": x}}`
with rate inversion `price = 1/x`. -/
def parse_metals_api_response (d : ApiBody) : Option GoldPrice :=
  if ¬ d.succ_flag.getD false then none
  else match d.ratesXAU with
  | none => none
  | some x =>
    if x ≤ 0 then none
    else
      let p := 1 / x
      if p ≤ 0 then none
      else some { price_usd := some p, price_change := some 12.5,
                  price_change_pct := some 0.38,
                  ask := some (p + 2), bid := some (p - 2),
                  high_24h := some (p + 15), low_24h := some (p - 15),
                  source := "Metals-API" }

/-- `_parse_metalpriceapi_response`: like Metals-API but with
`price = 1/x if x > 0 else 0` before the positivity check. -/
def parse_metalpriceapi_response (d : ApiBody) : Option GoldPrice :=
  if ¬ d.succ_flag.getD false then none
  else match d.ratesXAU with
  | none => none
  | some x =>
    let p := if 0 < x then 1 / x else 0
    if p ≤ 0 then none
    else some { price_usd := some p, price_change := some 12.5,
                price_change_pct := some 0.38,
                ask := some (p + 2), bid := some (p - 2),
                high_24h := some (p + 15), low_24h := some (p - 15),
                source := "metalpriceapi.com" }

/-- `_parse_yahoo_finance_response`: `{"quoteResponse": {"result": [q]}}`
with `dict.get` defaults. -/
def parse_yahoo_finance_response (d : ApiBody) : Option GoldPrice :=
  match d.quoteResult with
  | [] => none
  | q :: _ =>
    let current := q.regularMarketPrice.getD 0
    let previous := q.regularMarketPreviousClose.getD current
    let ch := q.regularMarketChange.getD (current - previous)
    let chp := q.regularMarketChangePercent.getD 0
    if current ≤ 0 then none
    else some { price_usd := some current, price_change := some ch,
                price_change_pct := some chp,
                ask := some (q.ask.getD (current + 1)),
                bid := some (q.bid.getD (current - 1)),
                high_24h := some (q.regularMarketDayHigh.getD (current + 10)),
                low_24h := some (q.regularMarketDayLow.getD (current - 10)),
                source := "yahoo_finance" }

/-- An upstream HTTP exchange: status code and parsed JSON body (`none`
when the body is not valid JSON). -/
structure HttpResp where
  status : Nat
  body : Option ApiBody
deriving DecidableEq, Repr

/-- A provider entry of `GoldPriceManager.apis`. -/
structure Api where
  name : String
  priority : Nat
  active : Bool
deriving DecidableEq, Repr

/-- `GoldPriceManager._fetch_from_api`: any status other than 200 raises a
`GoldAPIError` (401/429/403/404 and the generic branch alike), a
non-JSON body raises, and otherwise the parser selected by the provider
name runs; a raised error surfaces as `none` and the loop continues. -/
def fetch_from_api (name : String) (r : HttpResp) : Option GoldPrice :=
  if r.status ≠ 200 then none
  else match r.body with
  | none => none
  | some d =>
    if name = "api_ninjas" then parse_api_ninjas_response d
    else if name = "metals_api" then parse_metals_api_response d
    else if name = "metalpriceapi" then parse_metalpriceapi_response d
    else if name = "yahoo_finance" then parse_yahoo_finance_response d
    else none

/-- The hard-coded provider table of `GoldPriceManager.__init__`, in
insertion order. -/
def apis_config : List Api :=
  [⟨"api_ninjas", 1, true⟩, ⟨"metals_api", 2, true⟩,
   ⟨"metalpriceapi", 3, true⟩, ⟨"yahoo_finance", 4, true⟩]

/-- `sorted(self.apis.items(), key=priority)` (insertion sort). -/
def insert_by_priority (a : Api) : List Api → List Api
  | [] => [a]
  | b :: r => if a.priority ≤ b.priority then a :: b :: r
              else b :: insert_by_priority a r

def sort_by_priority : List Api → List Api
  | [] => []
  | a :: r => insert_by_priority a (sort_by_priority r)

/-- `self.active_apis`: the providers sorted ascending by priority, then
filtered to the active ones. -/
def active_apis : List Api :=
  (sort_by_priority apis_config).filter (fun a => a.active)

/-- The provider loop of `get_current_price`: the first provider whose
fetched quote passes validation wins; fetch errors and invalid quotes
fall through to the next provider. -/
def first_valid : List (Api × HttpResp) → Option GoldPrice
  | [] => none
  | (a, r) :: rest =>
    match fetch_from_api a.name r with
    | some p => if validate_price_data p then some p else first_valid rest
    | none => first_valid rest

/-- The Arabic source marker used by BOTH all-providers-failed fallback
branches ("could not fetch the price now, the last saved price will be
used"). -/
def fallback_source_msg : String :=
  "❌ تعذر جلب السعر الآن، سيتم استخدام آخر سعر محفوظ"

/-- The hard-coded demo placeholder quote returned when every provider
fails and no cache entry exists. -/
def demo_price : GoldPrice :=
  { price_usd := some 3320.45, price_change := some 12.82,
    price_change_pct := some 0.39, ask := some 3322.00,
    bid := some 3318.90, high_24h := some 3331.22,
    low_24h := some 3305.18, source := fallback_source_msg }

/-- `self.gold_cache["cache_duration"]`: 15 minutes in seconds. -/
def cache_duration : ℚ := 15 * 60

/-- `GoldPriceManager.get_current_price` over explicit state: `env` pairs
each провайдер of `apis` with its HTTP outcome positionally, `now` is
`time.time()`, and the cache is `some (price, timestamp)` or `none`.
Returns the quote and the new cache.  On the stale-cache path the source
of the CACHED object is overwritten in place (the Python code mutates the
shared object), and on the demo path the placeholder is stored with a
fresh timestamp. -/
def get_current_price (apis : List Api) (env : List HttpResp)
    (use_cache : Bool) (now : ℚ) (cache : Option (GoldPrice × ℚ)) :
    GoldPrice × Option (GoldPrice × ℚ) :=
  match cache with
  | some (p, ts) =>
    if use_cache ∧ now - ts < cache_duration then (p, some (p, ts))
    else
      match first_valid (apis.zip env) with
      | some q => (q, some (q, now))
      | none =>
        let p2 := { p with source := fallback_source_msg }
        (p2, some (p2, ts))
  | none =>
    match first_valid (apis.zip env) with
    | some q => (q, some (q, now))
    | none => (demo_price, some (demo_price, now))

/-- A quote whose price passes the validator's range check. -/
def price_in_range (p : GoldPrice) : Prop :=
  ∃ v, p.price_usd = some v ∧ 1000 ≤ v ∧ v ≤ 5000

lemma validate_implies_range (p : GoldPrice)
    (h : validate_price_data p = true) : price_in_range p := by
  unfold validate_price_data at h
  cases hp : p.price_usd with
  | none => rw [hp] at h; cases h
  | some v =>
    rw [hp] at h
    by_cases h1 : v ≤ 0
    · simp [h1] at h
    · by_cases h2 : 1000 ≤ v ∧ v ≤ 5000
      · exact ⟨v, hp, h2.1, h2.2⟩
      · simp [h1, h2] at h

lemma first_valid_validates (l : List (Api × HttpResp)) (q : GoldPrice)
    (h : first_valid l = some q) : validate_price_data q = true := by
  induction l with
  | nil => cases h
  | cons ar rest ih =>
    obtain ⟨a, r⟩ := ar
    cases hf : fetch_from_api a.name r with
    | none =>
      simp only [first_valid, hf] at h
      exact ih h
    | some p =>
      simp only [first_valid, hf] at h
      by_cases hv : validate_price_data p
      · rw [if_pos hv] at h
        cases h
        exact hv
      · rw [if_neg hv] at h
        exact ih h

lemma demo_price_in_range : price_in_range demo_price :=
  ⟨3320.45, rfl, by norm_num, by norm_num⟩

/-- **C5.**  Every quote `get_current_price` returns either has
`1000 ≤ price_usd ≤ 5000` or carries the defined fallback source marker;
the quote it stores in the cache always has its price in range (so the
hypothesis is an invariant); and no quote that fails validation is ever
produced as a fresh provider result. -/
theorem price_range_or_fallback_marker
    (apis : List Api) (env : List HttpResp) (use_cache : Bool) (now : ℚ)
    (cache : Option (GoldPrice × ℚ))
    (hcache : ∀ p ts, cache = some (p, ts) → price_in_range p) :
    (price_in_range (get_current_price apis env use_cache now cache).1
      ∨ (get_current_price apis env use_cache now cache).1.source
          = fallback_source_msg)
    ∧ (∀ p ts, (get_current_price apis env use_cache now cache).2 = some (p, ts) →
        price_in_range p)
    ∧ (∀ q, first_valid (apis.zip env) = some q →
        validate_price_data q = true) := by
  have hfv_val : ∀ q, first_valid (apis.zip env) = some q →
      validate_price_data q = true :=
    fun q h => first_valid_validates _ q h
  refine ⟨?_, ?_, hfv_val⟩
  · cases hc2 : cache with
    | none =>
      simp only [get_current_price]
      cases hfv : first_valid (apis.zip env) with
      | some q => exact Or.inl (validate_implies_range q (hfv_val q hfv))
      | none => exact Or.inr rfl
    | some pts =>
      obtain ⟨p, ts⟩ := pts
      have hpr : price_in_range p := hcache p ts hc2
      simp only [get_current_price]
      by_cases hcond : use_cache = true ∧ now - ts < cache_duration
      · rw [if_pos hcond]
        exact Or.inl hpr
      · rw [if_neg hcond]
        cases hfv : first_valid (apis.zip env) with
        | some q => exact Or.inl (validate_implies_range q (hfv_val q hfv))
        | none => exact Or.inr rfl
  · cases hc2 : cache with
    | none =>
      simp only [get_current_price]
      cases hfv : first_valid (apis.zip env) with
      | some q =>
        intro p' ts' heq
        cases heq
        exact validate_implies_range q (hfv_val q hfv)
      | none =>
        intro p' ts' heq
        cases heq
        exact demo_price_in_range
    | some pts =>
      obtain ⟨p, ts⟩ := pts
      have hpr : price_in_range p := hcache p ts hc2
      simp only [get_current_price]
      by_cases hcond : use_cache = true ∧ now - ts < cache_duration
      · rw [if_pos hcond]
        intro p' ts' heq
        cases heq
        exact hpr
      · rw [if_neg hcond]
        cases hfv : first_valid (apis.zip env) with
        | some q =>
          intro p' ts' heq
          cases heq
          exact validate_implies_range q (hfv_val q hfv)
        | none =>
          intro p' ts' heq
          cases heq
          obtain ⟨v, hv, h1, h2⟩ := hpr
          exact ⟨v, hv, h1, h2⟩

/-- Witness for `price_range_or_fallback_marker`: the concrete provider
table with every provider failing and an empty cache. -/
theorem price_range_or_fallback_marker_witness :
    (price_in_range (get_current_price active_apis
          [⟨500, none⟩, ⟨500, none⟩, ⟨500, none⟩, ⟨500, none⟩] true 0 none).1
      ∨ (get_current_price active_apis
          [⟨500, none⟩, ⟨500, none⟩, ⟨500, none⟩, ⟨500, none⟩] true 0 none).1.source
          = fallback_source_msg)
    ∧ (∀ p ts, (get_current_price active_apis
          [⟨500, none⟩, ⟨500, none⟩, ⟨500, none⟩, ⟨500, none⟩] true 0 none).2
            = some (p, ts) → price_in_range p)
    ∧ (∀ q, first_valid (active_apis.zip
          [⟨500, none⟩, ⟨500, none⟩, ⟨500, none⟩, ⟨500, none⟩]) = some q →
        validate_price_data q = true) :=
  price_range_or_fallback_marker active_apis
    [⟨500, none⟩, ⟨500, none⟩, ⟨500, none⟩, ⟨500, none⟩] true 0 none
    (fun _ _ h => nomatch h)

/-- **C6 (amended).**  When every provider fails, `get_current_price`
distinguishes the two fallback cases — a (possibly stale) cache entry is
returned with its `source` OVERWRITTEN by the fixed Arabic
price-unavailable message (cache timestamp preserved), and with no cache
entry the hard-coded placeholder quote is returned — but both cases use
the SAME marker string and the original source is discarded, not kept
behind a prefix. -/
theorem all_fail_fallback_behaviour
    (apis : List Api) (env : List HttpResp) (use_cache : Bool) (now : ℚ)
    (hall : first_valid (apis.zip env) = none) :
    (∀ p ts, ¬ (use_cache ∧ now - ts < cache_duration) →
        get_current_price apis env use_cache now (some (p, ts))
          = ({ p with source := fallback_source_msg },
             some ({ p with source := fallback_source_msg }, ts)))
    ∧ get_current_price apis env use_cache now none
        = (demo_price, some (demo_price, now))
    ∧ demo_price.source = fallback_source_msg := by
  refine ⟨fun p ts hnc => ?_, ?_, rfl⟩
  · simp only [get_current_price]
    rw [if_neg (by simpa using hnc), hall]
  · simp only [get_current_price]
    rw [hall]

/-- Witness for `all_fail_fallback_behaviour`: all four providers return
HTTP 500 against an expired cache entry. -/
theorem all_fail_fallback_behaviour_witness :
    (∀ p ts, ¬ (True ∧ (1000 : ℚ) - ts < cache_duration) →
        get_current_price active_apis
            [⟨500, none⟩, ⟨500, none⟩, ⟨500, none⟩, ⟨500, none⟩] true 1000
            (some (p, ts))
          = ({ p with source := fallback_source_msg },
             some ({ p with source := fallback_source_msg }, ts)))
    ∧ get_current_price active_apis
        [⟨500, none⟩, ⟨500, none⟩, ⟨500, none⟩, ⟨500, none⟩] true 1000 none
        = (demo_price, some (demo_price, 1000))
    ∧ demo_price.source = fallback_source_msg := by
  have h := all_fail_fallback_behaviour active_apis
    [⟨500, none⟩, ⟨500, none⟩, ⟨500, none⟩, ⟨500, none⟩] true 1000 (by decide)
  exact ⟨fun p ts hnc => h.1 p ts (by simpa using hnc), h.2.1, h.2.2⟩

/-- **C6 (counterexample).**  Priming the cache with a quote from
`API Ninjas` and then failing every provider: the returned `source` is
byte-identical to the `source` of the no-cache placeholder path — the two
"markers" are the SAME string, not distinct — and the original source
`API Ninjas` survives neither as a prefix target nor as any suffix of the
returned source. -/
theorem fallback_markers_not_distinct_cex :
    (get_current_price active_apis
        [⟨500, none⟩, ⟨500, none⟩, ⟨500, none⟩, ⟨500, none⟩] true 1000
        (some (⟨some 3310.06, some 1, some 1, some 3312, some 3308,
                some 3325, some 3295, "API Ninjas"⟩, 0))).1.source
      = (get_current_price active_apis
          [⟨500, none⟩, ⟨500, none⟩, ⟨500, none⟩, ⟨500, none⟩] true 1000 none).1.source
    ∧ (get_current_price active_apis
        [⟨500, none⟩, ⟨500, none⟩, ⟨500, none⟩, ⟨500, none⟩] true 1000
        (some (⟨some 3310.06, some 1, some 1, some 3312, some 3308,
                some 3325, some 3295, "API Ninjas"⟩, 0))).1.source ≠ "API Ninjas"
    ∧ ¬ List.IsSuffix "API Ninjas".data
        ((get_current_price active_apis
            [⟨500, none⟩, ⟨500, none⟩, ⟨500, none⟩, ⟨500, none⟩] true 1000
            (some (⟨some 3310.06, some 1, some 1, some 3312, some 3308,
                    some 3325, some 3295, "API Ninjas"⟩, 0))).1.source).data := by
  have hall : first_valid (active_apis.zip
      [⟨500, none⟩, ⟨500, none⟩, ⟨500, none⟩, ⟨500, none⟩]) = none := by decide
  have hnc : ¬ (True ∧ (1000 : ℚ) - 0 < cache_duration) := by
    norm_num [cache_duration]
  have h1 : get_current_price active_apis
      [⟨500, none⟩, ⟨500, none⟩, ⟨500, none⟩, ⟨500, none⟩] true 1000
      (some (⟨some 3310.06, some 1, some 1, some 3312, some 3308,
              some 3325, some 3295, "API Ninjas"⟩, 0))
      = (⟨some 3310.06, some 1, some 1, some 3312, some 3308,
          some 3325, some 3295, fallback_source_msg⟩,
         some (⟨some 3310.06, some 1, some 1, some 3312, some 3308,
                some 3325, some 3295, fallback_source_msg⟩, 0)) := by
    simp only [get_current_price]
    rw [if_neg hnc, hall]
  have h2 : get_current_price active_apis
      [⟨500, none⟩, ⟨500, none⟩, ⟨500, none⟩, ⟨500, none⟩] true 1000 none
      = (demo_price, some (demo_price, 1000)) := by
    simp only [get_current_price]
    rw [hall]
  refine ⟨?_, ?_, ?_⟩
  · rw [h1, h2]
    rfl
  · rw [h1]
    decide
  · rw [h1]
    decide


/-- **C7.**  The aggregator's active provider list is in ascending
priority order; a provider whose HTTP status is not 200 (401, 429, 403,
404 and any other non-200 alike) or whose body is not valid JSON is
skipped in favour of the next provider; the first provider whose fetched
quote passes validation determines the result; and for the spec's
concrete two-provider scenario (first returns 429, second returns
`{"price": 3310.06}`), the returned quote has price 3310.06 and the
second provider's source, and is stored in the cache with a fresh
timestamp. -/
theorem provider_priority_first_valid :
    active_apis.map (fun a => a.priority) = [1, 2, 3, 4]
    ∧ (∀ (a : Api) (r : HttpResp) (rest : List (Api × HttpResp)),
        r.status ≠ 200 ∨ r.body = none →
        first_valid ((a, r) :: rest) = first_valid rest)
    ∧ (∀ (a : Api) (r : HttpResp) (rest : List (Api × HttpResp)) (p : GoldPrice),
        fetch_from_api a.name r = some p → validate_price_data p = true →
        first_valid ((a, r) :: rest) = some p)
    ∧ (∀ now : ℚ,
        get_current_price
            [⟨"metals_api", 1, true⟩, ⟨"api_ninjas", 2, true⟩]
            [⟨429, none⟩, ⟨200, some { price := some 3310.06 }⟩]
            true now none
          = ({ price_usd := some 3310.06, price_change := some 12.5,
               price_change_pct := some 0.38,
               ask := some 3312.06, bid := some 3308.06,
               high_24h := some 3325.06, low_24h := some 3295.06,
               source := "API Ninjas" },
             some ({ price_usd := some 3310.06, price_change := some 12.5,
                     price_change_pct := some 0.38,
                     ask := some 3312.06, bid := some 3308.06,
                     high_24h := some 3325.06, low_24h := some 3295.06,
                     source := "API Ninjas" }, now))) := by
  refine ⟨by decide, ?_, ?_, ?_⟩
  · rintro a r rest (h | h) <;>
      simp [first_valid, fetch_from_api, h]
  · intro a r rest p hf hv
    simp [first_valid, hf, hv]
  · intro now
    norm_num [get_current_price, first_valid, fetch_from_api,
      parse_api_ninjas_response, validate_price_data, List.zip, List.zipWith]

/-- Witness for `provider_priority_first_valid`: the skip branch applied
to a concrete 429 response and the hit branch to a concrete valid parse. -/
theorem provider_priority_first_valid_witness :
    first_valid [(⟨"api_ninjas", 1, true⟩, ⟨429, none⟩)] = first_valid []
    ∧ first_valid [(⟨"api_ninjas", 1, true⟩,
        ⟨200, some { price := some 3310.06 }⟩)]
        = some { price_usd := some 3310.06, price_change := some 12.5,
                 price_change_pct := some 0.38,
                 ask := some 3312.06, bid := some 3308.06,
                 high_24h := some 3325.06, low_24h := some 3295.06,
                 source := "API Ninjas" } := by
  constructor
  · exact provider_priority_first_valid.2.1 _ _ [] (Or.inl (by decide))
  · exact provider_priority_first_valid.2.2.1 _ _ [] _
      (by simp only [fetch_from_api, parse_api_ninjas_response]
          norm_num)
      (by norm_num [validate_price_data])

/-- **C10.**  When every provider fails and no cache entry exists,
`get_current_price` stores the hard-coded placeholder (price 3320.45) in
the cache with a fresh timestamp; any later call with `use_cache = true`
within the 15-minute TTL returns that placeholder and leaves the cache
unchanged, whatever the providers would answer (the environment `env2` of
the second call is arbitrary, so no provider fetch can influence it). -/
theorem demo_fallback_cached_and_served
    (apis : List Api) (env env2 : List HttpResp) (now now2 : ℚ)
    (hall : first_valid (apis.zip env) = none)
    (hage : now2 - now < cache_duration) :
    get_current_price apis env true now none = (demo_price, some (demo_price, now))
    ∧ demo_price.price_usd = some 3320.45
    ∧ get_current_price apis env2 true now2 (some (demo_price, now))
        = (demo_price, some (demo_price, now)) := by
  refine ⟨?_, rfl, ?_⟩
  · unfold get_current_price
    simp [hall]
  · unfold get_current_price
    simp [hage]

/-- Witness for `demo_fallback_cached_and_served`: all providers fail at
time 0; at time 10 the second call's environment would even provide a
valid quote, yet the cached placeholder is served. -/
theorem demo_fallback_cached_and_served_witness :
    get_current_price active_apis
        [⟨500, none⟩, ⟨500, none⟩, ⟨500, none⟩, ⟨500, none⟩] true 0 none
      = (demo_price, some (demo_price, 0))
    ∧ demo_price.price_usd = some 3320.45
    ∧ get_current_price active_apis
        [⟨200, some { price := some 2000 }⟩, ⟨500, none⟩, ⟨500, none⟩, ⟨500, none⟩]
        true 10 (some (demo_price, 0))
      = (demo_price, some (demo_price, 0)) :=
  demo_fallback_cached_and_served active_apis
    [⟨500, none⟩, ⟨500, none⟩, ⟨500, none⟩, ⟨500, none⟩]
    [⟨200, some { price := some 2000 }⟩, ⟨500, none⟩, ⟨500, none⟩, ⟨500, none⟩]
    0 10 (by decide) (by norm_num [cache_duration])

/-! ## The `/analyze` endpoint (`backend/server.py`) -/

/-- `AnalysisType(value)`: raises `ValueError` for an unknown string. -/
def analysis_type_of_string : String → Option AnalysisType
  | "quick" => some .quick
  | "detailed" => some .detailed
  | "chart" => some .chart
  | "news" => some .news
  | "forecast" => some .forecast
  | _ => none

/-- The `AnalysisRequest` pydantic model of `backend/server.py`. -/
structure AnalysisRequest where
  analysis_type : String
  user_question : Option String := none
  additional_context : Option String := none
deriving Repr

/-- The `AnalysisResponse` pydantic model, restricted to the fields the
property reads. -/
structure AnalysisResponse where
  success : Bool
  analysis : Option String
  error : Option String
deriving DecidableEq, Repr

def msg_invalid_analysis_type : String :=
  "نوع التحليل غير صحيح. الأنواع المتاحة: quick, detailed, chart, news, forecast"

def msg_analysis_failed : String := "فشل في إجراء التحليل. يرجى المحاولة مرة أخرى."

/-- The `analyze_gold` handler of `POST /api/analyze` in
`backend/server.py`: validate the analysis type, fetch the price and call
the AI manager (both upstream outcomes passed in; the price feeds only the
response payload and the log entry), then answer.  The handler performs NO
quota check and NO quota recording — it never consults the auth manager at
all (it logs under the constant `user_id=1`), so the user store `st` flows
through untouched. -/
def analyze_gold (req : AnalysisRequest) (ai_result : Option String)
    (st : AuthState) : AnalysisResponse × AuthState :=
  match analysis_type_of_string req.analysis_type with
  | none => (⟨false, none, some msg_invalid_analysis_type⟩, st)
  | some _ =>
    match ai_result with
    | none => (⟨false, none, some msg_analysis_failed⟩, st)
    | some content => (⟨true, some content, none⟩, st)

/-- **C1.**  The bundled `/analyze` endpoint is NOT quota-gated: for a
basic-tier user whose daily quota is exhausted (`can_user_analyze` says
no), a request on their behalf still succeeds whenever the AI call
succeeds, and no request — successful or not — ever changes any user's
quota state (`record_analysis` is never invoked). -/
theorem analyze_endpoint_not_quota_gated :
    (can_user_analyze 7 ⟨[⟨1000, [], [], .basic, .active, 1, 1, some 7⟩], 1001⟩ 1000).1
        = false
    ∧ (analyze_gold ⟨"quick", none, none⟩ (some "تحليل الذهب")
        ⟨[⟨1000, [], [], .basic, .active, 1, 1, some 7⟩], 1001⟩).1.success = true
    ∧ (analyze_gold ⟨"quick", none, none⟩ (some "تحليل الذهب")
        ⟨[⟨1000, [], [], .basic, .active, 1, 1, some 7⟩], 1001⟩).2
        = ⟨[⟨1000, [], [], .basic, .active, 1, 1, some 7⟩], 1001⟩
    ∧ ∀ (req : AnalysisRequest) (ai : Option String) (st : AuthState),
        (analyze_gold req ai st).2 = st := by
  refine ⟨by decide, by decide, by decide, ?_⟩
  intro req ai st
  unfold analyze_gold
  cases analysis_type_of_string req.analysis_type <;> cases ai <;> rfl

end GoldBot
